import Mathlib

/-!
# Verification of the AMT preprocessing pipeline

Shallow embedding of `src/pudoms_to_hdf5.py` (the main routine that commits
log-mel spectrograms and piano rolls into two incremental HDF5 stores) and of
`src/ov_piano/data/PuDoMS.py` (the `MONO_pudoms` dataset index).

Modelling conventions:
* numpy float32 matrices are modelled column-wise over `Rat`: a matrix is a
  fixed `height` plus a list of columns, so the variable "time" axis is the
  list and `width` is its length; `np.pad(roll, ((0,0),(0,k)))` appends `k`
  all-zero columns.
* The external feature extractors (`torch_load_resample_audio` composed with
  `TorchWavToLogmel`, and `MidiToPianoRoll` composed with the `np.vstack` of
  its five retained channels) are not part of this repository's sources; they
  are modelled as oracles `String → Except Unit Mat` supplied by the
  environment, where `Except.error` stands for a raised Python exception.
* The filesystem (`os.path.exists`) is an oracle `String → Bool`.
* Python control flow is made explicit: `continue` is a normal successor
  state, a raised exception aborts the whole loop (the script installs no
  exception handler), and a failing `assert` raises `AssertionError`.
-/

namespace AMT

/-- Decidable equality for `Except`, used to evaluate the embedding on
concrete inputs. -/
instance {ε α : Type} [DecidableEq ε] [DecidableEq α] : DecidableEq (Except ε α) := fun x y =>
  match x, y with
  | Except.ok a, Except.ok b =>
    if h : a = b then Decidable.isTrue (congrArg Except.ok h)
    else Decidable.isFalse (fun hc => h (Except.ok.inj hc))
  | Except.ok _, Except.error _ => Decidable.isFalse (fun hc => Except.noConfusion hc)
  | Except.error _, Except.ok _ => Decidable.isFalse (fun hc => Except.noConfusion hc)
  | Except.error a, Except.error b =>
    if h : a = b then Decidable.isTrue (congrArg Except.error h)
    else Decidable.isFalse (fun hc => h (Except.error.inj hc))

/-! ## Matrices (numpy 2-D float arrays, column-wise) -/

/-- A 2-D numeric matrix: fixed feature `height` (rows), variable list of
columns (the time axis). `cols.length` is the numpy `shape[1]`. -/
structure Mat where
  height : Nat
  cols : List (List Rat)
deriving DecidableEq

/-- numpy `shape[1]` of a matrix: the number of time columns. -/
def Mat.width (m : Mat) : Nat := m.cols.length

/-- An all-zero column of the given height. -/
def zeroCol (h : Nat) : List Rat := List.replicate h 0

/-- Model of `np.pad(m, ((0, 0), (0, k)))`: append `k` all-zero columns on the right
(line 185 of `pudoms_to_hdf5.py`). -/
def padRight (m : Mat) (k : Nat) : Mat :=
  ⟨m.height, m.cols ++ List.replicate k (zeroCol m.height)⟩

/-! ## Paths and Python string helpers -/

/-- Split a character list at every occurrence of the separator. -/
def splitOnChar (sep : Char) : List Char → List (List Char)
  | [] => [[]]
  | c :: cs =>
    let rest := splitOnChar sep cs
    if c = sep then [] :: rest
    else
      match rest with
      | [] => [[c]]
      | r :: rs => (c :: r) :: rs

/-- Model of `os.path.basename`: the component after the last path separator. -/
def osBasename (p : String) : String :=
  String.mk ((splitOnChar '/' p.data).getLastD [])

/-- Whether the first string is a prefix of the second. -/
def pyStartsWith (pre s : String) : Bool := pre.data.isPrefixOf s.data

/-- Whether the first string is a suffix of the second. -/
def pyEndsWith (suf s : String) : Bool := suf.data.isSuffixOf s.data

/-- Model of `os.path.join(a, b)` for the two-argument calls in the source: an
absolute second component wins, otherwise the components are joined with a
single separator. -/
def pyJoin (a b : String) : String :=
  if pyStartsWith "/" b then b
  else if a = "" then b
  else if pyEndsWith "/" a then a ++ b
  else a ++ "/" ++ b

/-- Python `repr` of a short string without quotes or escapes inside, as used
on the metadata fields. -/
def pyReprStr (s : String) : String := "'" ++ s ++ "'"

/-- The metadata tuple carried with every sample: `(Split, Duration, Composer,
Title)` as produced by `MONO_pudoms.__init__`. The duration is modelled by its
decimal rendering. -/
structure SampleMeta where
  split : String
  duration : String
  composer : String
  title : String
deriving DecidableEq

/-- Model of `str((basepath, *meta))` at line 156 of `pudoms_to_hdf5.py`: the Python
string rendering of the 5-tuple `(basename, split, duration, composer,
title)`, modelled as the parenthesised comma-separated rendering of the
fields (strings quoted, the numeric duration unquoted). -/
def metadataStr (basepath : String) (m : SampleMeta) : String :=
  "(" ++ pyReprStr basepath ++ ", " ++ pyReprStr m.split ++ ", " ++
    m.duration ++ ", " ++ pyReprStr m.composer ++ ", " ++ pyReprStr m.title ++ ")"

/-- One entry of `all.data`: the pair of `str(id)` and `meta` iterated by the main
loop. -/
structure Sample where
  path : String
  meta : SampleMeta
deriving DecidableEq

/-! ## The incremental HDF5 store (external class, spec-modelled interface) -/

/-- Modelled from the spec: the error raised by `IncrementalHDF5` creation
(`ov_piano.utils` is not under `src/`): "fails with `AlreadyExists` if
`err_if_exists` is true and path is occupied". -/
inductive CreateErr
  | alreadyExists
deriving DecidableEq

/-- Modelled from the spec: the observable state of one `IncrementalHDF5`
store — the output path it is bound to, the ordered sequence of committed
`(matrix, metadata)` pairs, and whether `close()` has been called. Buffering
and chunked flushing are internal to the external class and not observable
at the commit interface used by `pudoms_to_hdf5.py`. -/
structure Store where
  path : String
  entries : List (Mat × String)
  closed : Bool
deriving DecidableEq

/-- Modelled from the spec: the constructor `IncrementalHDF5.__init__` with
its `err_if_exists` flag — creation bound to `path`, failing with `AlreadyExists` when
`err_if_exists` is true and the path is occupied, otherwise starting empty. -/
def createStore (fs : String → Bool) (path : String) (errIfExists : Bool) :
    Except CreateErr Store :=
  if errIfExists && fs path then Except.error CreateErr.alreadyExists
  else Except.ok ⟨path, [], false⟩

/-- Modelled from the spec: `IncrementalHDF5.append(matrix, metadata)` commits
one sample to the store, preserving insertion order. -/
def Store.append (s : Store) (m : Mat) (md : String) : Store :=
  { s with entries := s.entries ++ [(m, md)] }

/-- Modelled from the spec: `IncrementalHDF5.close()`. -/
def Store.close (s : Store) : Store := { s with closed := true }

/-- The `h5mel.append(logmel, metadata)` call lifted to the optional mel store. -/
def melAppend (omel : Option Store) (logmel : Mat) (md : String) : Option Store :=
  omel.map (fun t => t.append logmel md)

/-! ## Configuration, environment and run state of `pudoms_to_hdf5.py` -/

/-- The configuration fields of `ConfDef` that steer the committed data:
`INPATH`, the two derived output paths, and `IGNORE_MEL`. The purely numeric
STFT/mel parameters only parameterise the external extractors and the
output-file naming, both out of scope here. -/
structure Config where
  inpath : String
  melOutPath : String
  rollOutPath : String
  ignoreMel : Bool

/-- A Python exception escaping one loop iteration. -/
inductive PyExc
  | audioError
      -- raised inside `torch_load_resample_audio` / `logmel_fn` (lines 160-164)
  | midiError
      -- raised inside `pianoroll_fn` (lines 168-175)
  | assertWavShorterThanMidi
      -- `assert len_logmel >= len_roll` fails (lines 180-181)
  | assertLengthMismatch
      -- `assert len_logmel == roll.shape[1]` fails (lines 186-187)
deriving DecidableEq

/-- The external world: the filesystem and the two feature extractors.
`audioFeat` is the composition of `torch_load_resample_audio` and `logmel_fn`
applied to an audio path; `midiFeat` is `pianoroll_fn` on a MIDI path followed
by the `np.vstack` of the five retained channel blocks (lines 168-175). An
`Except.error` result stands for a raised exception (including the loader
raising on a missing audio file). -/
structure Env where
  fs : String → Bool
  audioFeat : String → Except Unit Mat
  midiFeat : String → Except Unit Mat

/-- The mutable state of the main routine: the optional mel store (`h5mel` is
only created when `IGNORE_MEL` is false, lines 123-127) and the roll store
(`h5roll`, lines 128-131). -/
structure RunState where
  h5mel : Option Store
  h5roll : Store
deriving DecidableEq

/-- The committed entries of the mel store (empty when no mel store exists). -/
def melEntries (st : RunState) : List (Mat × String) :=
  match st.h5mel with
  | some s => s.entries
  | none => []

/-- The metadata strings committed to the mel store, in order. -/
def melMetas (st : RunState) : List String := (melEntries st).map Prod.snd

/-- The metadata strings committed to the roll store, in order. -/
def rollMetas (st : RunState) : List String := st.h5roll.entries.map Prod.snd

/-! ## The main loop, per-sample step -/

/-- Lines 142-153: build the `.mid` and `.midi` candidate paths, probe them
with `os.path.exists` in that order, and return the first that exists
(`none` means neither exists and the iteration is skipped). -/
def resolveMidi (fs : String → Bool) (inpath basepath : String) : Option String :=
  let midipathMid := pyJoin inpath (basepath ++ ".mid")
  let midipathMidi := pyJoin inpath (basepath ++ ".midi")
  if fs midipathMid then some midipathMid
  else if fs midipathMidi then some midipathMidi
  else none

/-- Lines 177-185: the roll matrix actually handed to `h5roll.append` when the
mel stream is enabled — right-padded with zero columns up to the logmel width
when strictly shorter, unchanged otherwise. -/
def committedRoll (logmel roll : Mat) : Mat :=
  if roll.width < logmel.width then padRight roll (logmel.width - roll.width)
  else roll

/-- One iteration of the main loop (lines 139-191) on one sample.
`Sum.inl st2` is normal fall-through or `continue` with the new state;
`Sum.inr (st2, e)` is an exception `e` escaping the iteration with the state
mutated so far (the script installs no handler, so this aborts the run).
The order of effects mirrors the source: MIDI path resolution first, then —
when `IGNORE_MEL` is false — audio loading, logmel computation and
`h5mel.append`, then `pianoroll_fn`, then the length assertion, padding and
`h5roll.append`. -/
def processSample (cfg : Config) (env : Env) (st : RunState) (s : Sample) :
    Sum RunState (RunState × PyExc) :=
  let basepath := osBasename s.path
  match resolveMidi env.fs cfg.inpath basepath with
  | none => Sum.inl st
  | some midipath =>
    let abspath := pyJoin cfg.inpath s.path
    let metadata := metadataStr basepath s.meta
    let melRes : Sum (RunState × Option Mat) (RunState × PyExc) :=
      if cfg.ignoreMel then Sum.inl (st, none)
      else
        match env.audioFeat (abspath ++ ".wav") with
        | Except.error _ => Sum.inr (st, PyExc.audioError)
        | Except.ok logmel =>
            Sum.inl ({ st with h5mel := melAppend st.h5mel logmel metadata }, some logmel)
    match melRes with
    | Sum.inr r => Sum.inr r
    | Sum.inl (st1, ologmel) =>
      match env.midiFeat midipath with
      | Except.error _ => Sum.inr (st1, PyExc.midiError)
      | Except.ok roll =>
        match ologmel with
        | none => Sum.inl { st1 with h5roll := st1.h5roll.append roll metadata }
        | some logmel =>
          if logmel.width < roll.width then
            Sum.inr (st1, PyExc.assertWavShorterThanMidi)
          else
            let roll2 := committedRoll logmel roll
            if roll2.width = logmel.width then
              Sum.inl { st1 with h5roll := st1.h5roll.append roll2 metadata }
            else
              Sum.inr (st1, PyExc.assertLengthMismatch)

/-- Outcome of the whole `for` loop. -/
inductive LoopOutcome
  | done (st : RunState)
  | raised (st : RunState) (e : PyExc)
deriving DecidableEq

/-- The main `for` loop over `all.data` (lines 139-194): iterate
`processSample`; an escaping exception aborts the loop immediately, with the
remaining samples never processed. -/
def runLoop (cfg : Config) (env : Env) : RunState → List Sample → LoopOutcome
  | st, [] => LoopOutcome.done st
  | st, s :: rest =>
    match processSample cfg env st s with
    | Sum.inl st2 => runLoop cfg env st2 rest
    | Sum.inr (st2, e) => LoopOutcome.raised st2 e

/-- Lines 196-198: `h5mel.close()` (guarded by `IGNORE_MEL`), then
`h5roll.close()`. -/
def finalizeRun (cfg : Config) (st : RunState) : RunState :=
  let st1 := if cfg.ignoreMel then st
             else { st with h5mel := st.h5mel.map Store.close }
  { st1 with h5roll := st1.h5roll.close }

/-- Outcome of the whole script after store creation, loop and close calls. -/
inductive RunOutcome
  | createFailed (e : CreateErr)
  | raised (st : RunState) (e : PyExc)
  | completed (st : RunState)
deriving DecidableEq

/-- The whole main routine (lines 122-198): create `h5mel` (only when
`IGNORE_MEL` is false) and `h5roll`, both with `err_if_exists=True`; a
creation failure propagates before any sample is processed; then run the
loop; the close calls at the end only execute when the loop finishes without
an exception (there is no `try`/`finally`). -/
def runProgram (cfg : Config) (env : Env) (samples : List Sample) : RunOutcome :=
  let melCreate : Except CreateErr (Option Store) :=
    if cfg.ignoreMel then Except.ok none
    else (createStore env.fs cfg.melOutPath true).map some
  match melCreate with
  | Except.error e => RunOutcome.createFailed e
  | Except.ok omel =>
    match createStore env.fs cfg.rollOutPath true with
    | Except.error e => RunOutcome.createFailed e
    | Except.ok rollStore =>
      match runLoop cfg env ⟨omel, rollStore⟩ samples with
      | LoopOutcome.done st => RunOutcome.completed (finalizeRun cfg st)
      | LoopOutcome.raised st e => RunOutcome.raised st e

/-! ## The dataset index `MONO_pudoms` (`src/ov_piano/data/PuDoMS.py`) -/

/-- One row of `monophonic_midi.csv` restricted to the columns read by
`MONO_pudoms.__init__`: `File_Number`, `Split`, `Duration`, `Composer`,
`Title`. The duration is modelled by its decimal rendering. -/
structure Row where
  fileNumber : Nat
  split : String
  duration : String
  composer : String
  title : String
deriving DecidableEq

/-- The class attribute `MONO_pudoms.ALL_SPLITS`. -/
def ALL_SPLITS : List String := ["train", "validation", "test"]

/-- Python truthiness of a generator object: the expression
`(s in self.ALL_SPLITS for s in splits)` at line 40 of `PuDoMS.py` evaluates
to a generator object, and `bool` of any generator object is `True` in
Python, irrespective of the boolean values the generator would yield — so the
surrounding `assert` can never fire. The would-be yields are kept as the
argument to document what the source meant to check. -/
def pyGeneratorTruthy (_yields : List Bool) : Bool := true

/-- A Python exception escaping the dataset-index code. -/
inductive DatasetExc
  | assertUnknownSplit
      -- the `assert` at lines 40-41 of `PuDoMS.py`, message "Unknown split in ..."
  | assertMatchCount
      -- the `assert` at line 63 of `PuDoMS.py`, message "Expected exactly 1 match!"
deriving DecidableEq

/-- The observable result of `MONO_pudoms.__init__`: the root path and the
gathered `data` list of `(str(File_Number), (Split, Duration, Composer,
Title))` pairs. -/
structure MONO where
  rootpath : String
  data : List (String × SampleMeta)
deriving DecidableEq

/-- Model of `MONO_pudoms.__init__(rootpath, splits)` (lines 33-53 of `PuDoMS.py`): a
`None` splits argument defaults to `ALL_SPLITS`; the sanity check asserts the
truthiness of a generator expression; the csv rows are filtered by
`df["Split"].isin(splits)`; the kept rows are reformatted into
`(str(id), (s, dur, comp, title))`. -/
def monoInit (rootpath : String) (rows : List Row) (osplits : Option (List String)) :
    Except DatasetExc MONO :=
  let splits := osplits.getD ALL_SPLITS
  if pyGeneratorTruthy (splits.map (fun s => ALL_SPLITS.contains s)) then
    let kept := rows.filter (fun r => splits.contains r.split)
    Except.ok ⟨rootpath, kept.map (fun r =>
      (toString r.fileNumber, ⟨r.split, r.duration, r.composer, r.title⟩))⟩
  else Except.error DatasetExc.assertUnknownSplit

/-- Whether `sub` occurs as a contiguous sublist of the second argument. -/
def hasSublist (sub : List Char) : List Char → Bool
  | [] => sub.isEmpty
  | c :: t => sub.isPrefixOf (c :: t) || hasSublist sub t

/-- Python substring test `sub in s` on strings. -/
def pyIn (sub s : String) : Bool := hasSublist sub.data s.data

/-- Model of `MONO_pudoms.get_file_abspath(basename)` (lines 55-65 of `PuDoMS.py`):
collect the stored ids containing `basename` as a substring, assert that
exactly one matches, and return the rootpath-joined match. -/
def get_file_abspath (m : MONO) (basename : String) : Except DatasetExc String :=
  let found := (m.data.filter (fun p => pyIn basename p.1)).map Prod.fst
  if found.length = 1 then Except.ok (pyJoin m.rootpath (found.headD ""))
  else Except.error DatasetExc.assertMatchCount

/-! ## Result projections -/

/-- The state carried by a per-sample step result, whether the iteration fell
through or raised. -/
def resultState : Sum RunState (RunState × PyExc) → RunState
  | Sum.inl st => st
  | Sum.inr (st, _) => st

/-- The state carried by a loop outcome. -/
def loopState : LoopOutcome → RunState
  | LoopOutcome.done st => st
  | LoopOutcome.raised st _ => st

/-! ## Concrete fixtures used by witnesses and counterexamples -/

namespace Fixtures

def cfg0 : Config := ⟨"in", "mel.h5", "roll.h5", false⟩

def cfgIM : Config := ⟨"in", "mel.h5", "roll.h5", true⟩

def meta0 : SampleMeta := ⟨"train", "12.5", "comp", "title"⟩

def sample0 : Sample := ⟨"7", meta0⟩

def md0 : String := metadataStr "7" meta0

/-- A logmel of width 1 (and height 2). -/
def logmel1 : Mat := ⟨2, [[0, 0]]⟩

/-- A logmel of width 3 (and height 2). -/
def logmel3 : Mat := ⟨2, [[0, 0], [0, 0], [0, 0]]⟩

/-- A roll of width 2 (and height 3). -/
def roll2 : Mat := ⟨3, [[1, 0, 0], [0, 1, 0]]⟩

/-- A filesystem on which only `in/7.mid` exists. -/
def fsMid : String → Bool := fun p => p == "in/7.mid"

/-- Both MIDI extension variants exist. -/
def fsBoth : String → Bool := fun p => p == "in/7.mid" || p == "in/7.midi"

/-- Only the `.midi` variant exists. -/
def fsMidiOnly : String → Bool := fun p => p == "in/7.midi"

/-- Nothing exists. -/
def fsNone : String → Bool := fun _ => false

/-- Roll (width 2) strictly wider than logmel (width 1): length violation. -/
def envLenViol : Env := ⟨fsMid, fun _ => Except.ok logmel1, fun _ => Except.ok roll2⟩

/-- Roll (width 2) strictly narrower than logmel (width 3): padding. -/
def envPad : Env := ⟨fsMid, fun _ => Except.ok logmel3, fun _ => Except.ok roll2⟩

/-- Neither MIDI extension variant exists. -/
def envNoMidi : Env := ⟨fsNone, fun _ => Except.error (), fun _ => Except.error ()⟩

/-- The audio file is absent (`fsMid` holds only the MIDI file) and the
external audio loader raises on the missing path. -/
def envNoWav : Env := ⟨fsMid, fun _ => Except.error (), fun _ => Except.ok roll2⟩

/-- The MIDI feature extractor raises. -/
def envMidiErr : Env := ⟨fsMid, fun _ => Except.ok logmel3, fun _ => Except.error ()⟩

/-- The roll output path is already occupied. -/
def envOccupied : Env := ⟨fun p => p == "roll.h5", fun _ => Except.error (), fun _ => Except.error ()⟩

/-- Freshly created stores, mel stream enabled. -/
def st0 : RunState := ⟨some ⟨"mel.h5", [], false⟩, ⟨"roll.h5", [], false⟩⟩

/-- State after the failing iteration of `envLenViol`: the mel store already
holds the sample, the roll store does not. -/
def stLenViol : RunState :=
  ⟨some ⟨"mel.h5", [(logmel1, md0)], false⟩, ⟨"roll.h5", [], false⟩⟩

/-- State after the failing iteration of `envMidiErr`: the mel store already
holds the sample, the roll store does not. -/
def stMidiErr : RunState :=
  ⟨some ⟨"mel.h5", [(logmel3, md0)], false⟩, ⟨"roll.h5", [], false⟩⟩

/-- State after the committing iteration of `envPad`: both stores hold the
sample, the roll padded by one zero column. -/
def stPad : RunState :=
  ⟨some ⟨"mel.h5", [(logmel3, md0)], false⟩,
    ⟨"roll.h5", [(⟨3, [[1, 0, 0], [0, 1, 0], [0, 0, 0]]⟩, md0)], false⟩⟩

/-- Two csv rows with well-formed splits. -/
def rows0 : List Row := [⟨1, "train", "10.0", "a", "t1"⟩, ⟨2, "test", "20.0", "b", "t2"⟩]

/-- A dataset index with ids `123` and `231`. -/
def mono0 : MONO := ⟨"rp", [("123", meta0), ("231", meta0)]⟩

end Fixtures

/-! ## Helper lemmas -/

theorem padRight_width (m : Mat) (k : Nat) : (padRight m k).width = m.width + k := by
  simp [padRight, Mat.width]

theorem committedRoll_width (logmel roll : Mat) (h : roll.width ≤ logmel.width) :
    (committedRoll logmel roll).width = logmel.width := by
  unfold committedRoll
  split
  · rw [padRight_width]; omega
  · omega

theorem committedRoll_take (logmel roll : Mat) :
    (committedRoll logmel roll).cols.take roll.width = roll.cols := by
  unfold committedRoll
  split
  · show ((roll.cols ++ _).take roll.cols.length) = roll.cols
    exact List.take_left roll.cols _
  · show roll.cols.take roll.cols.length = roll.cols
    exact List.take_length roll.cols

theorem committedRoll_drop_zero (logmel roll : Mat) :
    ∀ c ∈ (committedRoll logmel roll).cols.drop roll.width, c = zeroCol roll.height := by
  unfold committedRoll
  split
  · show ∀ c ∈ (roll.cols ++ _).drop roll.cols.length, _
    rw [List.drop_left]
    intro c hc
    exact List.eq_of_mem_replicate hc
  · show ∀ c ∈ roll.cols.drop roll.cols.length, _
    rw [List.drop_length]
    intro c hc
    cases hc

theorem processSample_skip_eq (cfg : Config) (env : Env) (st : RunState) (s : Sample)
    (hres : resolveMidi env.fs cfg.inpath (osBasename s.path) = none) :
    processSample cfg env st s = Sum.inl st := by
  simp [processSample, hres]

theorem processSample_audioerr_eq (cfg : Config) (env : Env) (st : RunState) (s : Sample)
    (mp : String)
    (hcfg : cfg.ignoreMel = false)
    (hres : resolveMidi env.fs cfg.inpath (osBasename s.path) = some mp)
    (haud : env.audioFeat (pyJoin cfg.inpath s.path ++ ".wav") = Except.error ()) :
    processSample cfg env st s = Sum.inr (st, PyExc.audioError) := by
  simp [processSample, hres, hcfg, haud]

theorem processSample_midierr_eq (cfg : Config) (env : Env) (st : RunState) (s : Sample)
    (mp : String) (logmel : Mat)
    (hcfg : cfg.ignoreMel = false)
    (hres : resolveMidi env.fs cfg.inpath (osBasename s.path) = some mp)
    (haud : env.audioFeat (pyJoin cfg.inpath s.path ++ ".wav") = Except.ok logmel)
    (hmid : env.midiFeat mp = Except.error ()) :
    processSample cfg env st s =
      Sum.inr ({ st with
          h5mel := melAppend st.h5mel logmel (metadataStr (osBasename s.path) s.meta) },
        PyExc.midiError) := by
  simp [processSample, hres, hcfg, haud, hmid]

theorem processSample_lenviol_eq (cfg : Config) (env : Env) (st : RunState) (s : Sample)
    (mp : String) (logmel roll : Mat)
    (hcfg : cfg.ignoreMel = false)
    (hres : resolveMidi env.fs cfg.inpath (osBasename s.path) = some mp)
    (haud : env.audioFeat (pyJoin cfg.inpath s.path ++ ".wav") = Except.ok logmel)
    (hmid : env.midiFeat mp = Except.ok roll)
    (hw : logmel.width < roll.width) :
    processSample cfg env st s =
      Sum.inr ({ st with
          h5mel := melAppend st.h5mel logmel (metadataStr (osBasename s.path) s.meta) },
        PyExc.assertWavShorterThanMidi) := by
  simp [processSample, hres, hcfg, haud, hmid, hw]

theorem processSample_commit_eq (cfg : Config) (env : Env) (st : RunState) (s : Sample)
    (mp : String) (logmel roll : Mat)
    (hcfg : cfg.ignoreMel = false)
    (hres : resolveMidi env.fs cfg.inpath (osBasename s.path) = some mp)
    (haud : env.audioFeat (pyJoin cfg.inpath s.path ++ ".wav") = Except.ok logmel)
    (hmid : env.midiFeat mp = Except.ok roll)
    (hw : roll.width ≤ logmel.width) :
    processSample cfg env st s =
      Sum.inl { st with
        h5mel := melAppend st.h5mel logmel (metadataStr (osBasename s.path) s.meta),
        h5roll := (st.h5roll.append (committedRoll logmel roll)
          (metadataStr (osBasename s.path) s.meta)) } := by
  simp [processSample, hres, hcfg, haud, hmid, Nat.not_lt.mpr hw,
    committedRoll_width logmel roll hw]

theorem processSample_ignoreMel_commit_eq (cfg : Config) (env : Env) (st : RunState)
    (s : Sample) (mp : String) (roll : Mat)
    (hcfg : cfg.ignoreMel = true)
    (hres : resolveMidi env.fs cfg.inpath (osBasename s.path) = some mp)
    (hmid : env.midiFeat mp = Except.ok roll) :
    processSample cfg env st s =
      Sum.inl { st with
        h5roll := (st.h5roll.append roll (metadataStr (osBasename s.path) s.meta)) } := by
  simp [processSample, hres, hcfg, hmid]

theorem processSample_ignoreMel_midierr_eq (cfg : Config) (env : Env) (st : RunState)
    (s : Sample) (mp : String)
    (hcfg : cfg.ignoreMel = true)
    (hres : resolveMidi env.fs cfg.inpath (osBasename s.path) = some mp)
    (hmid : env.midiFeat mp = Except.error ()) :
    processSample cfg env st s = Sum.inr (st, PyExc.midiError) := by
  simp [processSample, hres, hcfg, hmid]

theorem runLoop_cons_inl (cfg : Config) (env : Env) (st : RunState) (s : Sample)
    (rest : List Sample) (st2 : RunState)
    (h : processSample cfg env st s = Sum.inl st2) :
    runLoop cfg env st (s :: rest) = runLoop cfg env st2 rest := by
  simp [runLoop, h]

theorem runLoop_cons_inr (cfg : Config) (env : Env) (st : RunState) (s : Sample)
    (rest : List Sample) (st2 : RunState) (e : PyExc)
    (h : processSample cfg env st s = Sum.inr (st2, e)) :
    runLoop cfg env st (s :: rest) = LoopOutcome.raised st2 e := by
  simp [runLoop, h]

theorem resultState_h5mel_ignoreMel (cfg : Config) (env : Env) (st : RunState) (s : Sample)
    (hcfg : cfg.ignoreMel = true) :
    (resultState (processSample cfg env st s)).h5mel = st.h5mel := by
  cases hres : resolveMidi env.fs cfg.inpath (osBasename s.path) with
  | none =>
    rw [processSample_skip_eq cfg env st s hres]
    rfl
  | some mp =>
    cases hmid : env.midiFeat mp with
    | error e =>
      cases e
      rw [processSample_ignoreMel_midierr_eq cfg env st s mp hcfg hres hmid]
      rfl
    | ok roll =>
      rw [processSample_ignoreMel_commit_eq cfg env st s mp roll hcfg hres hmid]
      rfl

theorem loopState_h5mel_ignoreMel (cfg : Config) (env : Env)
    (hcfg : cfg.ignoreMel = true) :
    ∀ (samples : List Sample) (st : RunState),
      (loopState (runLoop cfg env st samples)).h5mel = st.h5mel := by
  intro samples
  induction samples with
  | nil => intro st; rfl
  | cons s rest ih =>
    intro st
    have h := resultState_h5mel_ignoreMel cfg env st s hcfg
    cases hps : processSample cfg env st s with
    | inl st2 =>
      rw [runLoop_cons_inl cfg env st s rest st2 hps, ih st2]
      rw [hps] at h
      exact h
    | inr p =>
      obtain ⟨st2, e⟩ := p
      rw [runLoop_cons_inr cfg env st s rest st2 e hps]
      rw [hps] at h
      exact h

theorem finalizeRun_ignoreMel (cfg : Config) (st : RunState)
    (hcfg : cfg.ignoreMel = true) :
    finalizeRun cfg st = { st with h5roll := st.h5roll.close } := by
  simp [finalizeRun, hcfg]

theorem runProgram_ignoreMel_eq (cfg : Config) (env : Env) (samples : List Sample)
    (hcfg : cfg.ignoreMel = true) :
    runProgram cfg env samples =
      match createStore env.fs cfg.rollOutPath true with
      | Except.error e => RunOutcome.createFailed e
      | Except.ok rollStore =>
        match runLoop cfg env ⟨none, rollStore⟩ samples with
        | LoopOutcome.done st => RunOutcome.completed (finalizeRun cfg st)
        | LoopOutcome.raised st e => RunOutcome.raised st e := by
  simp [runProgram, hcfg]

/-! ## Claims -/

/-- C1 (counterexample): the claim states that a failure inside the
per-sample commit mutates neither store, keeping the two sample counts
equal. Concretely, with the spectrogram stream enabled, a spectrogram of
width 1 and a roll of width 2 make the length assertion fail — but only
after `h5mel.append` has already run, so after the failing iteration the mel
store holds 1 sample while the roll store holds 0. -/
theorem c1_counterexample :
    runProgram Fixtures.cfg0 Fixtures.envLenViol [Fixtures.sample0] =
      RunOutcome.raised Fixtures.stLenViol PyExc.assertWavShorterThanMidi ∧
    (melEntries Fixtures.stLenViol).length = 1 ∧
    Fixtures.stLenViol.h5roll.entries.length = 0 := by
  exact ⟨by decide, rfl, rfl⟩

/-- C1 (amended): on a length-invariant failure inside the per-sample commit
the roll store is not mutated, but the mel store has already received that
sample's append (the mel append at line 165 precedes the length validation at
lines 180-181), so after the failing iteration the mel store holds exactly one
more committed sample than before while the roll store is unchanged. -/
theorem c1_amended_mel_already_mutated (cfg : Config) (env : Env) (st : RunState)
    (s : Sample) (mp : String) (logmel roll : Mat) (ms : Store)
    (hcfg : cfg.ignoreMel = false)
    (hmel : st.h5mel = some ms)
    (hres : resolveMidi env.fs cfg.inpath (osBasename s.path) = some mp)
    (haud : env.audioFeat (pyJoin cfg.inpath s.path ++ ".wav") = Except.ok logmel)
    (hmid : env.midiFeat mp = Except.ok roll)
    (hw : logmel.width < roll.width) :
    processSample cfg env st s =
      Sum.inr ({ st with
          h5mel := some (ms.append logmel (metadataStr (osBasename s.path) s.meta)) },
        PyExc.assertWavShorterThanMidi) ∧
    ∀ st2 e, processSample cfg env st s = Sum.inr (st2, e) →
      st2.h5roll = st.h5roll ∧
      (melEntries st2).length = (melEntries st).length + 1 := by
  have heq := processSample_lenviol_eq cfg env st s mp logmel roll hcfg hres haud hmid hw
  rw [hmel] at heq
  constructor
  · exact heq
  · intro st2 e h
    rw [heq] at h
    simp only [Sum.inr.injEq, Prod.mk.injEq] at h
    obtain ⟨hst, he⟩ := h
    subst hst
    refine ⟨rfl, ?_⟩
    simp [melEntries, melAppend, hmel, Store.append]

/-- C1 (amended, witness): the amended statement at a concrete input. -/
theorem c1_amended_witness :
    processSample Fixtures.cfg0 Fixtures.envLenViol Fixtures.st0 Fixtures.sample0 =
      Sum.inr (Fixtures.stLenViol, PyExc.assertWavShorterThanMidi) ∧
    (melEntries Fixtures.stLenViol).length = (melEntries Fixtures.st0).length + 1 := by
  have h := c1_amended_mel_already_mutated Fixtures.cfg0 Fixtures.envLenViol Fixtures.st0
    Fixtures.sample0 "in/7.mid" Fixtures.logmel1 Fixtures.roll2 ⟨"mel.h5", [], false⟩
    rfl rfl (by decide) (by decide) (by decide) (by decide)
  exact ⟨h.1, (h.2 Fixtures.stLenViol PyExc.assertWavShorterThanMidi (by decide)).2⟩

/-- C2: with the spectrogram stream enabled, a roll strictly wider than its
paired spectrogram makes the commit fail with the length-invariant assertion;
a strictly narrower roll is right-padded with zero columns up to the
spectrogram width; the matrix appended to the roll store always has width
equal to the spectrogram width, its first `roll.width` columns are the
original roll and every padded column is all-zero. -/
theorem c2_length_check_and_padding (cfg : Config) (env : Env) (st : RunState)
    (s : Sample) (mp : String) (logmel roll : Mat)
    (hcfg : cfg.ignoreMel = false)
    (hres : resolveMidi env.fs cfg.inpath (osBasename s.path) = some mp)
    (haud : env.audioFeat (pyJoin cfg.inpath s.path ++ ".wav") = Except.ok logmel)
    (hmid : env.midiFeat mp = Except.ok roll) :
    (logmel.width < roll.width →
        processSample cfg env st s =
          Sum.inr ({ st with
              h5mel := melAppend st.h5mel logmel (metadataStr (osBasename s.path) s.meta) },
            PyExc.assertWavShorterThanMidi)) ∧
    (roll.width ≤ logmel.width →
        processSample cfg env st s =
          Sum.inl { st with
            h5mel := melAppend st.h5mel logmel (metadataStr (osBasename s.path) s.meta),
            h5roll := (st.h5roll.append (committedRoll logmel roll)
              (metadataStr (osBasename s.path) s.meta)) } ∧
        (committedRoll logmel roll).width = logmel.width ∧
        (committedRoll logmel roll).cols.take roll.width = roll.cols ∧
        (∀ c ∈ (committedRoll logmel roll).cols.drop roll.width, c = zeroCol roll.height)) := by
  constructor
  · intro hw
    exact processSample_lenviol_eq cfg env st s mp logmel roll hcfg hres haud hmid hw
  · intro hw
    exact ⟨processSample_commit_eq cfg env st s mp logmel roll hcfg hres haud hmid hw,
      committedRoll_width logmel roll hw, committedRoll_take logmel roll,
      committedRoll_drop_zero logmel roll⟩

/-- C2 (witness): spectrogram of width 3, roll of width 2 — the committed
roll has width 3 and the padded column is zero. -/
theorem c2_witness :
    processSample Fixtures.cfg0 Fixtures.envPad Fixtures.st0 Fixtures.sample0 =
      Sum.inl { Fixtures.st0 with
        h5mel := melAppend Fixtures.st0.h5mel Fixtures.logmel3 Fixtures.md0,
        h5roll := (Fixtures.st0.h5roll.append (committedRoll Fixtures.logmel3 Fixtures.roll2)
          Fixtures.md0) } ∧
    (committedRoll Fixtures.logmel3 Fixtures.roll2).width = Fixtures.logmel3.width ∧
    (committedRoll Fixtures.logmel3 Fixtures.roll2).cols.take Fixtures.roll2.width =
      Fixtures.roll2.cols ∧
    (∀ c ∈ (committedRoll Fixtures.logmel3 Fixtures.roll2).cols.drop Fixtures.roll2.width,
        c = zeroCol Fixtures.roll2.height) :=
  (c2_length_check_and_padding Fixtures.cfg0 Fixtures.envPad Fixtures.st0 Fixtures.sample0
    "in/7.mid" Fixtures.logmel3 Fixtures.roll2 rfl (by decide) (by decide) (by decide)).2
    (by decide)

/-- C3 (counterexample): the claim states that an extractor failure is
converted into a logged skip with no partial commit, and the loop advances.
Concretely, with the mel stream enabled and a MIDI extractor that raises, the
run aborts on the first of two samples (the second is never processed) and
the mel store has already received the first sample's append — a partial
commit. -/
theorem c3_counterexample :
    runProgram Fixtures.cfg0 Fixtures.envMidiErr [Fixtures.sample0, Fixtures.sample0] =
      RunOutcome.raised Fixtures.stMidiErr PyExc.midiError ∧
    (melEntries Fixtures.stMidiErr).length = 1 ∧
    Fixtures.stMidiErr.h5roll.entries.length = 0 := by
  exact ⟨by decide, rfl, rfl⟩

/-- C3 (amended): the loop installs no handler around the extractor calls: an
audio extractor failure raises with both stores untouched, a MIDI extractor
failure raises after the mel append has already happened (a partial commit
reaches the mel store), and any exception escaping an iteration aborts the
loop immediately — the remaining samples are never processed. -/
theorem c3_amended_extractor_failure_aborts (cfg : Config) (env : Env) (st : RunState)
    (s : Sample) (mp : String)
    (hres : resolveMidi env.fs cfg.inpath (osBasename s.path) = some mp) :
    (cfg.ignoreMel = false →
        env.audioFeat (pyJoin cfg.inpath s.path ++ ".wav") = Except.error () →
        processSample cfg env st s = Sum.inr (st, PyExc.audioError)) ∧
    (∀ logmel, cfg.ignoreMel = false →
        env.audioFeat (pyJoin cfg.inpath s.path ++ ".wav") = Except.ok logmel →
        env.midiFeat mp = Except.error () →
        processSample cfg env st s =
          Sum.inr ({ st with
              h5mel := melAppend st.h5mel logmel (metadataStr (osBasename s.path) s.meta) },
            PyExc.midiError)) ∧
    (∀ st2 e rest, processSample cfg env st s = Sum.inr (st2, e) →
        runLoop cfg env st (s :: rest) = LoopOutcome.raised st2 e) := by
  refine ⟨fun hcfg haud => processSample_audioerr_eq cfg env st s mp hcfg hres haud,
    fun logmel hcfg haud hmid =>
      processSample_midierr_eq cfg env st s mp logmel hcfg hres haud hmid,
    fun st2 e rest h => runLoop_cons_inr cfg env st s rest st2 e h⟩

/-- C3 (amended, witness): the MIDI extractor raising on the first of two
samples leaves a partial commit in the mel store and aborts the loop. -/
theorem c3_amended_witness :
    processSample Fixtures.cfg0 Fixtures.envMidiErr Fixtures.st0 Fixtures.sample0 =
      Sum.inr (Fixtures.stMidiErr, PyExc.midiError) ∧
    runLoop Fixtures.cfg0 Fixtures.envMidiErr Fixtures.st0 [Fixtures.sample0, Fixtures.sample0] =
      LoopOutcome.raised Fixtures.stMidiErr PyExc.midiError := by
  have h := c3_amended_extractor_failure_aborts Fixtures.cfg0 Fixtures.envMidiErr Fixtures.st0
    Fixtures.sample0 "in/7.mid" (by decide)
  exact ⟨h.2.1 Fixtures.logmel3 rfl rfl rfl,
    h.2.2 Fixtures.stMidiErr PyExc.midiError [Fixtures.sample0] (by decide)⟩

/-- C4 (counterexample): the claim states that a sample with an absent audio
file is logged and skipped with the loop continuing. Concretely, the loop
performs no existence check on the audio path: with the MIDI file present but
the audio file absent (the external loader raises on the missing path), the
run aborts on the first of two samples instead of skipping it — the second
sample is never processed. The stores are untouched, but no skip-and-continue
happens. -/
theorem c4_counterexample :
    runProgram Fixtures.cfg0 Fixtures.envNoWav [Fixtures.sample0, Fixtures.sample0] =
      RunOutcome.raised Fixtures.st0 PyExc.audioError ∧
    Fixtures.envNoWav.fs (pyJoin Fixtures.cfg0.inpath Fixtures.sample0.path ++ ".wav") = false := by
  exact ⟨by decide, rfl⟩

/-- C4 (amended): a missing MIDI file (neither `.mid` nor `.midi` exists) is
logged and skipped without touching either store and the loop continues with
the remaining samples; a missing audio file, however, is never checked by the
loop — the path is handed to the external audio loader and its failure raises
`audioError` with both stores untouched, aborting the run. -/
theorem c4_amended_missing_file_handling (cfg : Config) (env : Env) (st : RunState)
    (s : Sample) :
    (resolveMidi env.fs cfg.inpath (osBasename s.path) = none →
        processSample cfg env st s = Sum.inl st ∧
        ∀ rest, runLoop cfg env st (s :: rest) = runLoop cfg env st rest) ∧
    (∀ mp, resolveMidi env.fs cfg.inpath (osBasename s.path) = some mp →
        cfg.ignoreMel = false →
        env.audioFeat (pyJoin cfg.inpath s.path ++ ".wav") = Except.error () →
        processSample cfg env st s = Sum.inr (st, PyExc.audioError)) := by
  constructor
  · intro hres
    have h := processSample_skip_eq cfg env st s hres
    exact ⟨h, fun rest => runLoop_cons_inl cfg env st s rest st h⟩
  · intro mp hres hcfg haud
    exact processSample_audioerr_eq cfg env st s mp hcfg hres haud

/-- C4 (amended, witness): a sample with no MIDI file is skipped with the
state untouched; a sample whose audio load fails raises instead. -/
theorem c4_amended_witness :
    (processSample Fixtures.cfg0 Fixtures.envNoMidi Fixtures.st0 Fixtures.sample0 =
        Sum.inl Fixtures.st0 ∧
      runLoop Fixtures.cfg0 Fixtures.envNoMidi Fixtures.st0 [Fixtures.sample0] =
        runLoop Fixtures.cfg0 Fixtures.envNoMidi Fixtures.st0 []) ∧
    processSample Fixtures.cfg0 Fixtures.envNoWav Fixtures.st0 Fixtures.sample0 =
      Sum.inr (Fixtures.st0, PyExc.audioError) := by
  refine ⟨?_, ?_⟩
  · have h := (c4_amended_missing_file_handling Fixtures.cfg0 Fixtures.envNoMidi Fixtures.st0
      Fixtures.sample0).1 (by decide)
    exact ⟨h.1, h.2 []⟩
  · exact (c4_amended_missing_file_handling Fixtures.cfg0 Fixtures.envNoWav Fixtures.st0
      Fixtures.sample0).2 "in/7.mid" (by decide) rfl rfl

/-- C5: each feature store is created exactly once at the start of the run,
bound to its output path with `err_if_exists=True`; when an output path is
already occupied the creation fails with `AlreadyExists` before any sample is
processed, for any sample list — an existing output file is never silently
overwritten. -/
theorem c5_create_fails_on_existing_path (cfg : Config) (env : Env)
    (samples : List Sample) :
    (cfg.ignoreMel = false → env.fs cfg.melOutPath = true →
        runProgram cfg env samples = RunOutcome.createFailed CreateErr.alreadyExists) ∧
    (env.fs cfg.melOutPath = false → env.fs cfg.rollOutPath = true →
        runProgram cfg env samples = RunOutcome.createFailed CreateErr.alreadyExists) ∧
    (cfg.ignoreMel = true → env.fs cfg.rollOutPath = true →
        runProgram cfg env samples = RunOutcome.createFailed CreateErr.alreadyExists) := by
  refine ⟨fun h1 h2 => ?_, fun h1 h2 => ?_, fun h1 h2 => ?_⟩
  · simp [runProgram, createStore, Except.map, h1, h2]
  · cases hc : cfg.ignoreMel <;> simp [runProgram, createStore, Except.map, h1, h2, hc]
  · simp [runProgram, createStore, Except.map, h1, h2]

/-- C5 (witness): with the roll output path occupied, the run fails at
creation for any sample list. -/
theorem c5_witness :
    runProgram Fixtures.cfg0 Fixtures.envOccupied [Fixtures.sample0] =
      RunOutcome.createFailed CreateErr.alreadyExists :=
  (c5_create_fails_on_existing_path Fixtures.cfg0 Fixtures.envOccupied
    [Fixtures.sample0]).2.1 rfl rfl

/-- C6: when `IGNORE_MEL` is true, all spectrogram-stream logic is skipped:
the audio extractor is never consulted (replacing it does not change any
step), a resolvable sample with a successful MIDI extraction is committed to
the roll store exactly as extracted (no length check, no padding), no mel
store exists in any reachable outcome, and at the end of a completed run only
the roll store is closed. -/
theorem c6_ignore_mel_skips_spectrogram_logic (cfg : Config) (env : Env)
    (hcfg : cfg.ignoreMel = true) :
    (∀ (f : String → Except Unit Mat) (st : RunState) (s : Sample),
        processSample cfg env st s = processSample cfg ⟨env.fs, f, env.midiFeat⟩ st s) ∧
    (∀ (st : RunState) (s : Sample) (mp : String) (roll : Mat),
        resolveMidi env.fs cfg.inpath (osBasename s.path) = some mp →
        env.midiFeat mp = Except.ok roll →
        processSample cfg env st s =
          Sum.inl { st with
            h5roll := (st.h5roll.append roll (metadataStr (osBasename s.path) s.meta)) }) ∧
    (∀ samples stf, runProgram cfg env samples = RunOutcome.completed stf →
        stf.h5mel = none ∧ stf.h5roll.closed = true) ∧
    (∀ samples stf e, runProgram cfg env samples = RunOutcome.raised stf e →
        stf.h5mel = none) := by
  refine ⟨?_, ?_, ?_, ?_⟩
  · intro f st s
    simp [processSample, hcfg]
  · intro st s mp roll hres hmid
    exact processSample_ignoreMel_commit_eq cfg env st s mp roll hcfg hres hmid
  · intro samples stf h
    rw [runProgram_ignoreMel_eq cfg env samples hcfg] at h
    cases hcr : createStore env.fs cfg.rollOutPath true with
    | error e =>
      rw [hcr] at h
      dsimp only at h
      cases h
    | ok rs =>
      rw [hcr] at h
      dsimp only at h
      cases hlo : runLoop cfg env ⟨none, rs⟩ samples with
      | done st =>
        rw [hlo] at h
        dsimp only at h
        injection h with h2
        subst h2
        have hmel := loopState_h5mel_ignoreMel cfg env hcfg samples ⟨none, rs⟩
        rw [hlo] at hmel
        rw [finalizeRun_ignoreMel cfg st hcfg]
        exact ⟨hmel, rfl⟩
      | raised st e =>
        rw [hlo] at h
        dsimp only at h
        cases h
  · intro samples stf e h
    rw [runProgram_ignoreMel_eq cfg env samples hcfg] at h
    cases hcr : createStore env.fs cfg.rollOutPath true with
    | error e2 =>
      rw [hcr] at h
      dsimp only at h
      cases h
    | ok rs =>
      rw [hcr] at h
      dsimp only at h
      cases hlo : runLoop cfg env ⟨none, rs⟩ samples with
      | done st =>
        rw [hlo] at h
        dsimp only at h
        cases h
      | raised st e2 =>
        rw [hlo] at h
        dsimp only at h
        injection h with h2 h3
        subst h2
        have hmel := loopState_h5mel_ignoreMel cfg env hcfg samples ⟨none, rs⟩
        rw [hlo] at hmel
        exact hmel

/-- C6 (witness): a concrete `IGNORE_MEL` run commits the raw roll and closes
only the roll store. -/
theorem c6_witness :
    processSample Fixtures.cfgIM Fixtures.envPad Fixtures.st0 Fixtures.sample0 =
      Sum.inl { Fixtures.st0 with
        h5roll := (Fixtures.st0.h5roll.append Fixtures.roll2
          (metadataStr (osBasename Fixtures.sample0.path) Fixtures.sample0.meta)) } ∧
    (⟨none, ⟨"roll.h5", [(Fixtures.roll2, Fixtures.md0)], true⟩⟩ : RunState).h5mel = none ∧
    (⟨none, ⟨"roll.h5", [(Fixtures.roll2, Fixtures.md0)], true⟩⟩ : RunState).h5roll.closed
      = true := by
  have h := c6_ignore_mel_skips_spectrogram_logic Fixtures.cfgIM Fixtures.envPad rfl
  refine ⟨h.2.1 Fixtures.st0 Fixtures.sample0 "in/7.mid" Fixtures.roll2 (by decide) rfl, ?_⟩
  exact h.2.2.1 [Fixtures.sample0]
    ⟨none, ⟨"roll.h5", [(Fixtures.roll2, Fixtures.md0)], true⟩⟩ (by decide)

/-- C7: the MIDI file path is resolved by an existence check over the two
extension variants in a fixed order — the `.mid` variant is probed first,
then `.midi`, the first that exists wins, and when both exist the `.mid`
path is used (the first conjunct applies regardless of the `.midi` probe). -/
theorem c7_midi_extension_resolution (fs : String → Bool) (inpath basepath : String) :
    (fs (pyJoin inpath (basepath ++ ".mid")) = true →
        resolveMidi fs inpath basepath = some (pyJoin inpath (basepath ++ ".mid"))) ∧
    (fs (pyJoin inpath (basepath ++ ".mid")) = false →
        fs (pyJoin inpath (basepath ++ ".midi")) = true →
        resolveMidi fs inpath basepath = some (pyJoin inpath (basepath ++ ".midi"))) ∧
    (fs (pyJoin inpath (basepath ++ ".mid")) = false →
        fs (pyJoin inpath (basepath ++ ".midi")) = false →
        resolveMidi fs inpath basepath = none) := by
  refine ⟨fun h1 => ?_, fun h1 h2 => ?_, fun h1 h2 => ?_⟩
  · simp [resolveMidi, h1]
  · simp [resolveMidi, h1, h2]
  · simp [resolveMidi, h1, h2]

/-- C7 (witness): with both variants present the `.mid` path wins; with only
`.midi` present it is used; with neither the sample is skipped. -/
theorem c7_witness :
    resolveMidi Fixtures.fsBoth "in" "7" = some (pyJoin "in" ("7" ++ ".mid")) ∧
    resolveMidi Fixtures.fsMidiOnly "in" "7" = some (pyJoin "in" ("7" ++ ".midi")) ∧
    resolveMidi Fixtures.fsNone "in" "7" = none :=
  ⟨(c7_midi_extension_resolution Fixtures.fsBoth "in" "7").1 rfl,
    (c7_midi_extension_resolution Fixtures.fsMidiOnly "in" "7").2.1 rfl rfl,
    (c7_midi_extension_resolution Fixtures.fsNone "in" "7").2.2 rfl rfl⟩

/-- C8: the dataset-index constructor never raises on unknown split names —
the sanity `assert` tests a generator expression, which is always truthy —
and rows whose `Split` is not in the given set are silently filtered out, so
a splits set containing only unknown names (over well-formed rows) yields an
empty data list rather than an error. -/
theorem c8_split_assert_vacuous (rootpath : String) (rows : List Row)
    (osplits : Option (List String)) :
    (∃ m, monoInit rootpath rows osplits = Except.ok m) ∧
    (∀ m, monoInit rootpath rows osplits = Except.ok m →
        ∀ e ∈ m.data, (osplits.getD ALL_SPLITS).contains e.2.split = true) ∧
    (∀ splits, osplits = some splits →
        (∀ r ∈ rows, r.split ∈ ALL_SPLITS) →
        (∀ x ∈ splits, x ∉ ALL_SPLITS) →
        monoInit rootpath rows osplits = Except.ok ⟨rootpath, []⟩) := by
  refine ⟨⟨_, rfl⟩, ?_, ?_⟩
  · intro m hm e he
    simp only [monoInit, pyGeneratorTruthy, if_true, Except.ok.injEq] at hm
    subst hm
    simp only [List.mem_map, List.mem_filter] at he
    obtain ⟨r, ⟨_, hsplit⟩, rfl⟩ := he
    exact hsplit
  · intro splits hsp hwf hunk
    subst hsp
    simp only [monoInit, pyGeneratorTruthy, if_true, Except.ok.injEq, MONO.mk.injEq,
      true_and, List.map_eq_nil_iff, List.filter_eq_nil_iff, Option.getD_some,
      decide_eq_true_eq]
    intro r hr hmem
    exact hunk _ (List.mem_of_elem_eq_true hmem) (hwf r hr)

/-- C8 (witness): a splits set holding only the unknown name `weird` yields
an empty data list without raising. -/
theorem c8_witness :
    monoInit "rp" Fixtures.rows0 (some ["weird"]) = Except.ok ⟨"rp", []⟩ :=
  (c8_split_assert_vacuous "rp" Fixtures.rows0 (some ["weird"])).2.2 ["weird"] rfl
    (by decide) (by decide)

/-- C9: a sample committed to both stores in one iteration hands the two
stores the identical metadata string, namely the rendering of the tuple
`(basename, split, duration, composer, title)`; in particular if the two
stores carried equal metadata sequences before the step they still do after
it. -/
theorem c9_shared_metadata (cfg : Config) (env : Env) (st : RunState) (s : Sample)
    (mp : String) (logmel roll : Mat) (ms : Store) (st2 : RunState)
    (hcfg : cfg.ignoreMel = false)
    (hmel : st.h5mel = some ms)
    (hres : resolveMidi env.fs cfg.inpath (osBasename s.path) = some mp)
    (haud : env.audioFeat (pyJoin cfg.inpath s.path ++ ".wav") = Except.ok logmel)
    (hmid : env.midiFeat mp = Except.ok roll)
    (hw : roll.width ≤ logmel.width)
    (hstep : processSample cfg env st s = Sum.inl st2) :
    melMetas st2 = melMetas st ++ [metadataStr (osBasename s.path) s.meta] ∧
    rollMetas st2 = rollMetas st ++ [metadataStr (osBasename s.path) s.meta] ∧
    (melMetas st = rollMetas st → melMetas st2 = rollMetas st2) := by
  rw [processSample_commit_eq cfg env st s mp logmel roll hcfg hres haud hmid hw] at hstep
  injection hstep with h2
  subst h2
  refine ⟨?_, ?_, ?_⟩
  · simp [melMetas, melEntries, melAppend, hmel, Store.append]
  · simp [rollMetas, Store.append]
  · intro h
    simp only [melMetas, melEntries, hmel, rollMetas] at h
    simp [melMetas, melEntries, rollMetas, melAppend, hmel, Store.append, h]

/-- C9 (witness): the concrete padded commit writes the same metadata string
to both stores, keeping the metadata sequences equal. -/
theorem c9_witness :
    melMetas Fixtures.stPad = melMetas Fixtures.st0 ++
      [metadataStr (osBasename Fixtures.sample0.path) Fixtures.sample0.meta] ∧
    rollMetas Fixtures.stPad = rollMetas Fixtures.st0 ++
      [metadataStr (osBasename Fixtures.sample0.path) Fixtures.sample0.meta] ∧
    melMetas Fixtures.stPad = rollMetas Fixtures.stPad := by
  have h := c9_shared_metadata Fixtures.cfg0 Fixtures.envPad Fixtures.st0 Fixtures.sample0
    "in/7.mid" Fixtures.logmel3 Fixtures.roll2 ⟨"mel.h5", [], false⟩ Fixtures.stPad
    rfl rfl (by decide) (by decide) (by decide) (by decide) (by decide)
  exact ⟨h.1, h.2.1, h.2.2 rfl⟩

/-- C10: `get_file_abspath` matches the basename as a substring of the stored
sample ids; it returns the rootpath-joined match exactly when one id matches,
and raises the assertion (returns no path) for zero or several matches. -/
theorem c10_unique_substring_match (m : MONO) (b : String) :
    (((m.data.filter (fun p => pyIn b p.1)).map Prod.fst).length = 1 →
        get_file_abspath m b = Except.ok (pyJoin m.rootpath
          (((m.data.filter (fun p => pyIn b p.1)).map Prod.fst).headD ""))) ∧
    (((m.data.filter (fun p => pyIn b p.1)).map Prod.fst).length ≠ 1 →
        get_file_abspath m b = Except.error DatasetExc.assertMatchCount) ∧
    ((m.data.filter (fun p => pyIn b p.1)).map Prod.fst =
        (m.data.map Prod.fst).filter (fun fn => pyIn b fn)) := by
  refine ⟨fun h1 => ?_, fun h1 => ?_, ?_⟩
  · simp [get_file_abspath, h1]
  · simp only [List.length_map] at h1
    simp [get_file_abspath, h1]
  · rw [List.filter_map]
    rfl

/-- C10 (witness): over ids `123` and `231`, basename `12` matches uniquely
and yields the joined path, while basename `23` matches both ids and raises. -/
theorem c10_witness :
    get_file_abspath Fixtures.mono0 "12" = Except.ok (pyJoin "rp"
      (((Fixtures.mono0.data.filter (fun p => pyIn "12" p.1)).map Prod.fst).headD "")) ∧
    get_file_abspath Fixtures.mono0 "23" = Except.error DatasetExc.assertMatchCount :=
  ⟨(c10_unique_substring_match Fixtures.mono0 "12").1 (by decide),
    (c10_unique_substring_match Fixtures.mono0 "23").2.1 (by decide)⟩

end AMT
